import Mathlib

/-!
Verification of the rules-based health analysis engine
(src/server/services/rulesBasedAnalysisService.ts).

The TypeScript source is shallowly embedded below.  JavaScript numbers are
modelled as Option ℚ where none plays the role of NaN (every comparison with
NaN is false in JavaScript); raw input values (string | number) are modelled
by the RawValue sum type, and the Record of raw values by an association
list.  The lifestyle and dietary recommendation lists of the source never
feed back into the findings, referrals, narrative branch or fused risk, and
are outside the scope of the claims, so they are not modelled.  The long
fixed interpretation and reason strings attached to findings and referrals
are likewise presentation-only and are omitted from the embedded records;
the narrative summary string is modelled by the branch that produces it.
-/

namespace LabVio

/-- Classification status of a lab parameter (the TS union
'normal' | 'borderline' | 'abnormal'). -/
inductive Status where
  | normal
  | borderline
  | abnormal
deriving DecidableEq, Repr

/-- Referral urgency (the TS union 'routine' | 'soon' | 'urgent'). -/
inductive Urgency where
  | routine
  | soon
  | urgent
deriving DecidableEq, Repr

/-- Risk level (the TS union 'low' | 'moderate' | 'high'). -/
inductive RiskLevel where
  | low
  | moderate
  | high
deriving DecidableEq, Repr

/-- External (ML) risk assessment: the mlRiskData argument of the source. -/
structure MLRisk where
  riskLevel : RiskLevel
  riskScore : ℚ
deriving DecidableEq, Repr

/-- A raw input value: JavaScript string | number. -/
inductive RawValue where
  | str (s : String)
  | num (q : ℚ)
deriving DecidableEq, Repr

/-- The raw values mapping (TS Record of string to string | number),
as an association list in insertion order with unique keys. -/
def Values := List (String × RawValue)

/-- One entry of labValueBreakdown.  The fixed normalRange and
interpretation strings of the source are presentation-only and omitted. -/
structure LabValue where
  parameter : String
  value : String
  status : Status
deriving DecidableEq, Repr

/-- One entry of suggestedSpecialists (reason string omitted). -/
structure Specialist where
  type : String
  urgency : Urgency
deriving DecidableEq, Repr

/-- Which branch built the detailedFindings summary string. -/
inductive Narrative where
  | allNormal
  | borderlineOnly
  | enumerative
  | generic
deriving DecidableEq, Repr

/-- The analysis result (the RulesBasedAnalysis interface, with the
recommendation lists omitted as explained in the header). -/
structure Analysis where
  detailedFindings : Narrative
  labValueBreakdown : List LabValue
  suggestedSpecialists : List Specialist
  correctedRiskLevel : RiskLevel
  correctedRiskScore : ℚ
deriving DecidableEq, Repr

/-! ## JavaScript semantics helpers -/

/-- JavaScript property lookup on the modelled record. -/
def lookupV (values : Values) (k : String) : Option RawValue :=
  match values with
  | [] => none
  | (k', v) :: rest => if k' = k then some v else lookupV rest k

/-- JavaScript falsiness of a present string | number value
(the empty string and the number 0 are falsy). -/
def falsyV : RawValue → Bool
  | .str s => s = ""
  | .num q => q = 0

/-- The idiom (values.x || default): the default is substituted when the
property is absent or its value is falsy. -/
def jsOrV (v : Option RawValue) (d : RawValue) : RawValue :=
  match v with
  | none => d
  | some x => if falsyV x then d else x

/-- Decimal digit test. -/
def isDigit (c : Char) : Bool := '0' ≤ c ∧ c ≤ '9'

/-- Numeric value of a list of decimal digits. -/
def digitsToNat (l : List Char) : ℕ :=
  l.foldl (fun acc c => acc * 10 + (c.toNat - '0'.toNat)) 0

/-- Model of JavaScript parseFloat on a string: optional leading
whitespace and sign, then the longest prefix of the form digits
[ . digits ].  Returns none for NaN (no leading numeric prefix at all).
Exponent forms and Infinity, never produced by this application's inputs,
are not modelled. -/
def jsParseFloat (s : String) : Option ℚ :=
  let l := s.data.dropWhile (fun c => c = ' ' ∨ c = '\t' ∨ c = '\n' ∨ c = '\r')
  let (sign, l) : ℤ × List Char :=
    match l with
    | '-' :: rest => (-1, rest)
    | '+' :: rest => (1, rest)
    | _ => (1, l)
  let (intPart, l) := l.span isDigit
  let (fracPart, _) : List Char × List Char :=
    match l with
    | '.' :: rest => rest.span isDigit
    | _ => ([], [])
  if intPart = [] ∧ fracPart = [] then none
  else some (mkRat
    (sign * (digitsToNat intPart * 10 ^ fracPart.length + digitsToNat fracPart))
    (10 ^ fracPart.length))

/-- parseFloat(String(v)) for a string | number value:
a number round-trips through its decimal rendering, a string is parsed. -/
def parseFloatRaw (v : RawValue) : Option ℚ :=
  match v with
  | .num q => some q
  | .str s => jsParseFloat s

/-- JavaScript x < c where x may be NaN (comparison with NaN is false). -/
def jlt (x : Option ℚ) (c : ℚ) : Bool :=
  match x with
  | none => false
  | some q => q < c

/-- JavaScript x > c where x may be NaN. -/
def jgt (x : Option ℚ) (c : ℚ) : Bool :=
  match x with
  | none => false
  | some q => c < q

/-- JavaScript x >= c where x may be NaN. -/
def jge (x : Option ℚ) (c : ℚ) : Bool :=
  match x with
  | none => false
  | some q => c ≤ q

/-- JavaScript x === c for a possibly-NaN number (NaN === c is false). -/
def jeq (x : Option ℚ) (c : ℚ) : Bool :=
  match x with
  | none => false
  | some q => q = c

/-- Multiplication by a constant, propagating NaN. -/
def jmul (x : Option ℚ) (c : ℚ) : Option ℚ := x.map (· * c)

/-- Whether the first list starts with the second. -/
def startsWithL : List Char → List Char → Bool
  | _, [] => true
  | [], _ :: _ => false
  | a :: as, b :: bs => a = b && startsWithL as bs

/-- Whether pat occurs inside l (JavaScript String.prototype.includes). -/
def hasSubL (l pat : List Char) : Bool :=
  match l with
  | [] => startsWithL [] pat
  | _ :: rest => startsWithL l pat || hasSubL rest pat

/-- JavaScript s.includes(pat). -/
def strHasSub (s pat : String) : Bool := hasSubL s.data pat.data

/-- JavaScript s.charAt(0).toUpperCase() + s.slice(1). -/
def capFirst (s : String) : String :=
  match s.data with
  | [] => ""
  | c :: rest => ⟨c.toUpper :: rest⟩

/-- Left-pad a string with zeros to length d. -/
def zeroPad (s : String) (d : ℕ) : String :=
  ⟨List.replicate (d - s.length) '0'⟩ ++ s

/-- Model of JavaScript Number.prototype.toFixed(d): the magnitude is
scaled by 10^d and rounded to the nearest integer, halves away from zero,
computed directly on the numerator and denominator; NaN formats as
"NaN". -/
def jsToFixed (x : Option ℚ) (d : ℕ) : String :=
  match x with
  | none => "NaN"
  | some q =>
    let m : ℕ := (2 * q.num.natAbs * 10 ^ d + q.den) / (2 * q.den)
    let sign := if q.num < 0 ∧ m ≠ 0 then "-" else ""
    if d = 0 then sign ++ toString m
    else sign ++ toString (m / 10 ^ d) ++ "." ++ zeroPad (toString (m % 10 ^ d)) d

/-- Drop trailing zeros (and a trailing point) from a decimal rendering. -/
def trimDecimal (s : String) : String :=
  let l := s.data.reverse.dropWhile (· = '0')
  let l := match l with
    | '.' :: rest => rest
    | _ => l
  ⟨l.reverse⟩

/-- Model of JavaScript String(number): integer values render without a
point, others with their (finite) decimal expansion.  Exact for the
decimal-fraction values this application handles. -/
def jsNumToStr (q : ℚ) : String :=
  if q.den = 1 then toString q.num
  else trimDecimal (jsToFixed (some q) 10)

/-- JavaScript String(v) for a string | number value. -/
def jsStringOfRaw : RawValue → String
  | .str s => s
  | .num q => jsNumToStr q

/-- Whether a referral of the given specialist type is already present
(the !specialists.find(s.type === t) deduplication idiom). -/
def hasType (l : List Specialist) (t : String) : Bool :=
  l.any (fun s => s.type = t)

/-! ## Risk fusion combinator (calculateCombinedRiskAssessment) -/

/-- Numeric rank of a risk level (high 2, moderate 1, low 0), as computed
by the chained conditionals of the source. -/
def riskRank : RiskLevel → ℕ
  | .high => 2
  | .moderate => 1
  | .low => 0

/-- The final numeric-to-level conversion of the source
(greater or equal 2 is high, greater or equal 1 is moderate, else low). -/
def rankToLevel (n : ℕ) : RiskLevel :=
  if 2 ≤ n then .high else if 1 ≤ n then .moderate else .low

/-- Clinical rules risk: rank and score from the classification counts,
first matching tier wins (lines 62-77 of the source). -/
def clinicalRisk (abnormalCount borderlineCount urgentCount soonCount : ℕ) : ℕ × ℚ :=
  if 0 < urgentCount ∨ 3 ≤ abnormalCount then
    (2, min 100 (75 + (abnormalCount : ℚ) * 5 + (urgentCount : ℚ) * 10))
  else if 0 < soonCount ∨ 2 ≤ abnormalCount then
    (1, min 100 (50 + (abnormalCount : ℚ) * 5 + (soonCount : ℚ) * 5))
  else if 1 ≤ abnormalCount ∨ 2 ≤ borderlineCount then
    (1, min 100 (40 + (abnormalCount : ℚ) * 3 + (borderlineCount : ℚ) * 2))
  else if 1 ≤ borderlineCount then
    (0, 25 + (borderlineCount : ℚ) * 2)
  else
    (0, 15)

/-- calculateCombinedRiskAssessment: fuse the ML assessment with the
clinical rules by the max strategy, returning the corrected level and the
corrected score min(100, max(mlScore, clinicalScore)). -/
def calculateCombinedRiskAssessment (ml : MLRisk)
    (abnormalCount borderlineCount urgentCount soonCount : ℕ) : RiskLevel × ℚ :=
  let mlRiskNumeric := riskRank ml.riskLevel
  let clinical := clinicalRisk abnormalCount borderlineCount urgentCount soonCount
  let finalRiskNumeric := max mlRiskNumeric clinical.1
  let finalScore := max ml.riskScore clinical.2
  (rankToLevel finalRiskNumeric, min 100 finalScore)

/-! ## CBC panel (analyzeCBCRules) -/

/-- Normalized WBC: parseFloat(String(values.wbc || 7.5)). -/
def cbcWbc (values : Values) : Option ℚ :=
  parseFloatRaw (jsOrV (lookupV values "wbc") (.num 7.5))

/-- Normalized RBC (default 4.7). -/
def cbcRbc (values : Values) : Option ℚ :=
  parseFloatRaw (jsOrV (lookupV values "rbc") (.num 4.7))

/-- Normalized hemoglobin (default 14.0). -/
def cbcHemoglobin (values : Values) : Option ℚ :=
  parseFloatRaw (jsOrV (lookupV values "hemoglobin") (.num 14.0))

/-- Normalized hematocrit (default 42.0). -/
def cbcHematocrit (values : Values) : Option ℚ :=
  parseFloatRaw (jsOrV (lookupV values "hematocrit") (.num 42.0))

/-- Whether values.platelets is a string containing "adequate"
(case-insensitively). -/
def cbcPlateletsAdequate (values : Values) : Bool :=
  match lookupV values "platelets" with
  | some (.str s) => strHasSub s.toLower "adequate"
  | _ => false

/-- Normalized platelets: the "adequate" sentinel maps to 250,
otherwise parseFloat(String(values.platelets || 250)). -/
def cbcPlatelets (values : Values) : Option ℚ :=
  if cbcPlateletsAdequate values then some 250
  else parseFloatRaw (jsOrV (lookupV values "platelets") (.num 250))

/-- Normalized neutrophil fraction (default 0.60). -/
def cbcNeutrophils (values : Values) : Option ℚ :=
  parseFloatRaw (jsOrV (lookupV values "neutrophils") (.num 0.60))

/-- Normalized stab cell fraction (default 0). -/
def cbcStabCells (values : Values) : Option ℚ :=
  parseFloatRaw (jsOrV (lookupV values "stab_cells") (.num 0))

/-- Normalized lymphocyte fraction (default 0.30). -/
def cbcLymphocytes (values : Values) : Option ℚ :=
  parseFloatRaw (jsOrV (lookupV values "lymphocytes") (.num 0.30))

/-- Normalized monocyte fraction (default 0.05). -/
def cbcMonocytes (values : Values) : Option ℚ :=
  parseFloatRaw (jsOrV (lookupV values "monocytes") (.num 0.05))

/-- Normalized eosinophil fraction (default 0.03). -/
def cbcEosinophils (values : Values) : Option ℚ :=
  parseFloatRaw (jsOrV (lookupV values "eosinophils") (.num 0.03))

/-- Normalized basophil fraction (default 0.01). -/
def cbcBasophils (values : Values) : Option ℚ :=
  parseFloatRaw (jsOrV (lookupV values "basophils") (.num 0.01))

/-- WBC status (normal 4.5-11.0). -/
def cbcWbcStatus (values : Values) : Status :=
  if jlt (cbcWbc values) 4.5 then .abnormal
  else if jgt (cbcWbc values) 11.0 then .abnormal
  else .normal

/-- RBC status (normal 4.2-5.9). -/
def cbcRbcStatus (values : Values) : Status :=
  if jlt (cbcRbc values) 4.2 then .abnormal
  else if jgt (cbcRbc values) 5.9 then .abnormal
  else .normal

/-- Hemoglobin status (normal 12.0-17.5). -/
def cbcHbStatus (values : Values) : Status :=
  if jlt (cbcHemoglobin values) 12.0 then .abnormal
  else if jgt (cbcHemoglobin values) 17.5 then .abnormal
  else .normal

/-- Hematocrit status (normal 36-50). -/
def cbcHctStatus (values : Values) : Status :=
  if jlt (cbcHematocrit values) 36 then .abnormal
  else if jgt (cbcHematocrit values) 50 then .abnormal
  else .normal

/-- Platelet status (normal 150-400). -/
def cbcPltStatus (values : Values) : Status :=
  if jlt (cbcPlatelets values) 150 then .abnormal
  else if jgt (cbcPlatelets values) 400 then .abnormal
  else .normal

/-- Neutrophil status (normal 0.54-0.70, borderline bands outside). -/
def cbcNeutStatus (values : Values) : Status :=
  if jlt (cbcNeutrophils values) 0.40 then .abnormal
  else if jgt (cbcNeutrophils values) 0.75 then .abnormal
  else if jlt (cbcNeutrophils values) 0.54 then .borderline
  else if jgt (cbcNeutrophils values) 0.70 then .borderline
  else .normal

/-- Lymphocyte status (normal 0.20-0.40). -/
def cbcLymphStatus (values : Values) : Status :=
  if jlt (cbcLymphocytes values) 0.15 then .abnormal
  else if jgt (cbcLymphocytes values) 0.45 then .abnormal
  else if jlt (cbcLymphocytes values) 0.20 then .borderline
  else if jgt (cbcLymphocytes values) 0.40 then .borderline
  else .normal

/-- Monocyte status: an exact zero and a value strictly between 0 and 0.02
are both borderline; above 0.12 abnormal; above 0.08 borderline. -/
def cbcMonoStatus (values : Values) : Status :=
  if jlt (cbcMonocytes values) 0.02 && jgt (cbcMonocytes values) 0 then .borderline
  else if jeq (cbcMonocytes values) 0 then .borderline
  else if jgt (cbcMonocytes values) 0.12 then .abnormal
  else if jgt (cbcMonocytes values) 0.08 then .borderline
  else .normal

/-- Eosinophil status (abnormal above 0.08, borderline above 0.05). -/
def cbcEosinStatus (values : Values) : Status :=
  if jgt (cbcEosinophils values) 0.08 then .abnormal
  else if jgt (cbcEosinophils values) 0.05 then .borderline
  else .normal

/-- Basophil status (abnormal above 0.02, borderline above 0.01). -/
def cbcBasoStatus (values : Values) : Status :=
  if jgt (cbcBasophils values) 0.02 then .abnormal
  else if jgt (cbcBasophils values) 0.01 then .borderline
  else .normal

/-- Stab cell status (abnormal above 0.10, borderline above 0.05). -/
def cbcStabStatus (values : Values) : Status :=
  if jgt (cbcStabCells values) 0.10 then .abnormal
  else if jgt (cbcStabCells values) 0.05 then .borderline
  else .normal

/-- The specialist referrals pushed during CBC classification, in source
order with the source's per-push deduplication checks. -/
def cbcSpecialistsPre (values : Values) : List Specialist :=
  let s1 : List Specialist :=
    if jlt (cbcWbc values) 4.5 then [⟨"Hematologist", .soon⟩]
    else if jgt (cbcWbc values) 11.0 then [⟨"Internal Medicine", .soon⟩]
    else []
  let s2 :=
    if jlt (cbcRbc values) 4.2 then s1 ++ [⟨"Hematologist", .soon⟩]
    else if jgt (cbcRbc values) 5.9 then s1 ++ [⟨"Hematologist", .soon⟩]
    else s1
  let s3 :=
    if jlt (cbcHemoglobin values) 12.0 then
      if hasType s2 "Hematologist" then s2 else s2 ++ [⟨"Hematologist", .soon⟩]
    else if jgt (cbcHemoglobin values) 17.5 then
      if hasType s2 "Hematologist" then s2 else s2 ++ [⟨"Hematologist", .soon⟩]
    else s2
  let s4 :=
    if jlt (cbcHematocrit values) 36 then
      if hasType s3 "Hematologist" then s3 else s3 ++ [⟨"Hematologist", .soon⟩]
    else if jgt (cbcHematocrit values) 50 then
      if hasType s3 "Hematologist" then s3 else s3 ++ [⟨"Hematologist", .soon⟩]
    else s3
  let s5 :=
    if jlt (cbcPlatelets values) 150 then
      if hasType s4 "Hematologist" then s4 else s4 ++ [⟨"Hematologist", .urgent⟩]
    else if jgt (cbcPlatelets values) 400 then
      if hasType s4 "Hematologist" then s4 else s4 ++ [⟨"Hematologist", .soon⟩]
    else s4
  s5

/-- The CBC labValueBreakdown, in source push order; the stab cell entry
is only present when the stab fraction is greater than zero. -/
def cbcBreakdown (values : Values) : List LabValue :=
  [ ⟨"White Blood Cell Count (WBC)", jsToFixed (cbcWbc values) 1 ++ " K/uL",
      cbcWbcStatus values⟩,
    ⟨"Red Blood Cell Count (RBC)", jsToFixed (cbcRbc values) 2 ++ " M/uL",
      cbcRbcStatus values⟩,
    ⟨"Hemoglobin", jsToFixed (cbcHemoglobin values) 1 ++ " g/dL",
      cbcHbStatus values⟩,
    ⟨"Hematocrit", jsToFixed (cbcHematocrit values) 1 ++ "%",
      cbcHctStatus values⟩,
    ⟨"Platelet Count",
      (if cbcPlateletsAdequate values then "Adequate"
       else jsToFixed (cbcPlatelets values) 0 ++ " K/uL"),
      cbcPltStatus values⟩,
    ⟨"Neutrophils (Segmenters)", jsToFixed (jmul (cbcNeutrophils values) 100) 0 ++ "%",
      cbcNeutStatus values⟩,
    ⟨"Lymphocytes", jsToFixed (jmul (cbcLymphocytes values) 100) 0 ++ "%",
      cbcLymphStatus values⟩,
    ⟨"Monocytes", jsToFixed (jmul (cbcMonocytes values) 100) 0 ++ "%",
      cbcMonoStatus values⟩,
    ⟨"Eosinophils", jsToFixed (jmul (cbcEosinophils values) 100) 0 ++ "%",
      cbcEosinStatus values⟩,
    ⟨"Basophils", jsToFixed (jmul (cbcBasophils values) 100) 0 ++ "%",
      cbcBasoStatus values⟩ ] ++
  (if jgt (cbcStabCells values) 0 then
    [⟨"Stab Cells (Bands)", jsToFixed (jmul (cbcStabCells values) 100) 0 ++ "%",
      cbcStabStatus values⟩]
   else [])

/-- abnormalCount derived from the CBC breakdown. -/
def cbcAbnormalCount (values : Values) : ℕ :=
  ((cbcBreakdown values).filter (fun b => b.status = .abnormal)).length

/-- borderlineCount derived from the CBC breakdown. -/
def cbcBorderlineCount (values : Values) : ℕ :=
  ((cbcBreakdown values).filter (fun b => b.status = .borderline)).length

/-- urgentCount derived from the referrals pushed during classification. -/
def cbcUrgentCount (values : Values) : ℕ :=
  ((cbcSpecialistsPre values).filter (fun s => s.urgency = .urgent)).length

/-- soonCount derived from the referrals pushed during classification. -/
def cbcSoonCount (values : Values) : ℕ :=
  ((cbcSpecialistsPre values).filter (fun s => s.urgency = .soon)).length

/-- The CBC narrative branch: all-normal positive paragraph when there is
no abnormal and no borderline finding, else the enumerative paragraph. -/
def cbcNarrative (values : Values) : Narrative :=
  if cbcAbnormalCount values = 0 ∧ cbcBorderlineCount values = 0 then .allNormal
  else .enumerative

/-- The final CBC referral list: the all-normal branch pushes a routine
General Practitioner referral, and if the list is still empty a routine
General Practitioner referral is appended unconditionally. -/
def cbcFinalSpecialists (values : Values) : List Specialist :=
  let specialists1 :=
    if cbcAbnormalCount values = 0 ∧ cbcBorderlineCount values = 0 then
      cbcSpecialistsPre values ++ [⟨"General Practitioner", .routine⟩]
    else cbcSpecialistsPre values
  if specialists1.isEmpty then [⟨"General Practitioner", .routine⟩] else specialists1

/-- analyzeCBCRules: classify, fuse risk, pick the narrative branch, apply
the never-empty referral fallback. -/
def analyzeCBCRules (values : Values) (ml : MLRisk) : Analysis :=
  let risk := calculateCombinedRiskAssessment ml
    (cbcAbnormalCount values) (cbcBorderlineCount values)
    (cbcUrgentCount values) (cbcSoonCount values)
  { detailedFindings := cbcNarrative values,
    labValueBreakdown := cbcBreakdown values,
    suggestedSpecialists := cbcFinalSpecialists values,
    correctedRiskLevel := risk.1,
    correctedRiskScore := risk.2 }

/-! ## Lipid profile panel (analyzeLipidProfileRules) -/

/-- Normalized total cholesterol (default 180). -/
def lipidCholesterol (values : Values) : Option ℚ :=
  parseFloatRaw (jsOrV (lookupV values "cholesterol") (.num 180))

/-- Normalized HDL (default 55). -/
def lipidHdl (values : Values) : Option ℚ :=
  parseFloatRaw (jsOrV (lookupV values "hdl") (.num 55))

/-- Normalized LDL (default 100). -/
def lipidLdl (values : Values) : Option ℚ :=
  parseFloatRaw (jsOrV (lookupV values "ldl") (.num 100))

/-- Normalized triglycerides (default 140). -/
def lipidTriglycerides (values : Values) : Option ℚ :=
  parseFloatRaw (jsOrV (lookupV values "triglycerides") (.num 140))

/-- Total cholesterol status (abnormal at or above 240, borderline at or
above 200). -/
def lipidCholStatus (values : Values) : Status :=
  if jge (lipidCholesterol values) 240 then .abnormal
  else if jge (lipidCholesterol values) 200 then .borderline
  else .normal

/-- LDL status (abnormal at or above 160, borderline at or above 130;
the near-optimal 100-129 band only changes the interpretation text). -/
def lipidLdlStatus (values : Values) : Status :=
  if jge (lipidLdl values) 160 then .abnormal
  else if jge (lipidLdl values) 130 then .borderline
  else .normal

/-- HDL status (abnormal below 40). -/
def lipidHdlStatus (values : Values) : Status :=
  if jlt (lipidHdl values) 40 then .abnormal else .normal

/-- Triglyceride status (abnormal at or above 200, borderline at or above
150). -/
def lipidTgStatus (values : Values) : Status :=
  if jge (lipidTriglycerides values) 200 then .abnormal
  else if jge (lipidTriglycerides values) 150 then .borderline
  else .normal

/-- The specialist referrals pushed during lipid classification, in source
order; all but the first push are deduplicated on the Cardiologist type. -/
def lipidSpecialistsPre (values : Values) : List Specialist :=
  let s1 : List Specialist :=
    if jge (lipidCholesterol values) 240 then [⟨"Cardiologist", .soon⟩] else []
  let s2 :=
    if jge (lipidLdl values) 160 then
      if hasType s1 "Cardiologist" then s1 else s1 ++ [⟨"Cardiologist", .soon⟩]
    else s1
  let s3 :=
    if jlt (lipidHdl values) 40 then
      if hasType s2 "Cardiologist" then s2 else s2 ++ [⟨"Cardiologist", .soon⟩]
    else s2
  let s4 :=
    if jge (lipidTriglycerides values) 200 then
      if hasType s3 "Cardiologist" then s3 else s3 ++ [⟨"Cardiologist", .soon⟩]
    else s3
  s4

/-- The lipid labValueBreakdown, in source push order. -/
def lipidBreakdown (values : Values) : List LabValue :=
  [ ⟨"Total Cholesterol", jsToFixed (lipidCholesterol values) 0 ++ " mg/dL",
      lipidCholStatus values⟩,
    ⟨"LDL Cholesterol (Bad)", jsToFixed (lipidLdl values) 0 ++ " mg/dL",
      lipidLdlStatus values⟩,
    ⟨"HDL Cholesterol (Good)", jsToFixed (lipidHdl values) 0 ++ " mg/dL",
      lipidHdlStatus values⟩,
    ⟨"Triglycerides", jsToFixed (lipidTriglycerides values) 0 ++ " mg/dL",
      lipidTgStatus values⟩ ]

/-- abnormalCount derived from the lipid breakdown. -/
def lipidAbnormalCount (values : Values) : ℕ :=
  ((lipidBreakdown values).filter (fun b => b.status = .abnormal)).length

/-- borderlineCount derived from the lipid breakdown. -/
def lipidBorderlineCount (values : Values) : ℕ :=
  ((lipidBreakdown values).filter (fun b => b.status = .borderline)).length

/-- urgentCount for the lipid panel. -/
def lipidUrgentCount (values : Values) : ℕ :=
  ((lipidSpecialistsPre values).filter (fun s => s.urgency = .urgent)).length

/-- soonCount for the lipid panel. -/
def lipidSoonCount (values : Values) : ℕ :=
  ((lipidSpecialistsPre values).filter (fun s => s.urgency = .soon)).length

/-- The lipid narrative branch. -/
def lipidNarrative (values : Values) : Narrative :=
  if lipidAbnormalCount values = 0 ∧ lipidBorderlineCount values = 0 then .allNormal
  else .enumerative

/-- The final lipid referral list (all-normal General Practitioner push,
then the never-empty fallback). -/
def lipidFinalSpecialists (values : Values) : List Specialist :=
  let specialists1 :=
    if lipidAbnormalCount values = 0 ∧ lipidBorderlineCount values = 0 then
      lipidSpecialistsPre values ++ [⟨"General Practitioner", .routine⟩]
    else lipidSpecialistsPre values
  if specialists1.isEmpty then [⟨"General Practitioner", .routine⟩] else specialists1

/-- analyzeLipidProfileRules. -/
def analyzeLipidProfileRules (values : Values) (ml : MLRisk) : Analysis :=
  let risk := calculateCombinedRiskAssessment ml
    (lipidAbnormalCount values) (lipidBorderlineCount values)
    (lipidUrgentCount values) (lipidSoonCount values)
  { detailedFindings := lipidNarrative values,
    labValueBreakdown := lipidBreakdown values,
    suggestedSpecialists := lipidFinalSpecialists values,
    correctedRiskLevel := risk.1,
    correctedRiskScore := risk.2 }

/-! ## Urinalysis panel (analyzeUrinalysisRules)

The source also parses values.ketones and values.nitrites but never uses
them in any finding, referral or score, so they have no embedded
counterpart. -/

/-- Normalized urine pH (default 6.0). -/
def uriPh (values : Values) : Option ℚ :=
  parseFloatRaw (jsOrV (lookupV values "ph") (.num 6.0))

/-- Normalized specific gravity: values.specific_gravity ||
values.specificGravity || 1.015. -/
def uriSpecificGravity (values : Values) : Option ℚ :=
  parseFloatRaw (jsOrV (lookupV values "specific_gravity")
    (jsOrV (lookupV values "specificGravity") (.num 1.015)))

/-- Lowercased protein string: String(values.protein || 'Negative')
lowercased. -/
def uriProteinValue (values : Values) : String :=
  (jsStringOfRaw (jsOrV (lookupV values "protein") (.str "Negative"))).toLower

/-- Coerced protein: anything other than "positive" or "trace" becomes
"negative". -/
def uriProtein (values : Values) : String :=
  if uriProteinValue values = "positive" ∨ uriProteinValue values = "trace"
  then uriProteinValue values else "negative"

/-- Normalized pus cells: values.leukocyte_esterase || values.wbc_urine
|| 0. -/
def uriPusCells (values : Values) : Option ℚ :=
  parseFloatRaw (jsOrV (lookupV values "leukocyte_esterase")
    (jsOrV (lookupV values "wbc_urine") (.num 0)))

/-- Normalized red cells: values.rbc_urine || values.blood || 0. -/
def uriRedCells (values : Values) : Option ℚ :=
  parseFloatRaw (jsOrV (lookupV values "rbc_urine")
    (jsOrV (lookupV values "blood") (.num 0)))

/-- Lowercased bacteria string: String(values.bacteria || 'Negative')
lowercased. -/
def uriBacteriaValue (values : Values) : String :=
  (jsStringOfRaw (jsOrV (lookupV values "bacteria") (.str "Negative"))).toLower

/-- Coerced bacteria: anything outside few, moderate, many becomes
"negative". -/
def uriBacteria (values : Values) : String :=
  if uriBacteriaValue values = "few" ∨ uriBacteriaValue values = "moderate" ∨
      uriBacteriaValue values = "many"
  then uriBacteriaValue values else "negative"

/-- Normalized urine glucose (default 0). -/
def uriGlucose (values : Values) : Option ℚ :=
  parseFloatRaw (jsOrV (lookupV values "glucose") (.num 0))

/-- Lowercased color string (default Yellow). -/
def uriColor (values : Values) : String :=
  (jsStringOfRaw (jsOrV (lookupV values "color") (.str "Yellow"))).toLower

/-- Lowercased clarity string (default Clear). -/
def uriClarity (values : Values) : String :=
  (jsStringOfRaw (jsOrV (lookupV values "clarity") (.str "Clear"))).toLower

/-- pH status (abnormal below 4.5 or above 8.0; borderline below 5.5 or
above 7.5). -/
def uriPhStatus (values : Values) : Status :=
  if jlt (uriPh values) 4.5 then .abnormal
  else if jgt (uriPh values) 8.0 then .abnormal
  else if jlt (uriPh values) 5.5 then .borderline
  else if jgt (uriPh values) 7.5 then .borderline
  else .normal

/-- Specific gravity status (abnormal below 1.005 or above 1.030). -/
def uriSgStatus (values : Values) : Status :=
  if jlt (uriSpecificGravity values) 1.005 then .abnormal
  else if jgt (uriSpecificGravity values) 1.030 then .abnormal
  else .normal

/-- Clarity status: hazy or cloudy is borderline, turbid is abnormal. -/
def uriClarityStatus (values : Values) : Status :=
  if strHasSub (uriClarity values) "hazy" || strHasSub (uriClarity values) "cloudy"
  then .borderline
  else if strHasSub (uriClarity values) "turbid" then .abnormal
  else .normal

/-- Protein status: positive is abnormal, trace is borderline, negative is
normal. -/
def uriProteinStatus (values : Values) : Status :=
  if uriProtein values = "positive" then .abnormal
  else if uriProtein values = "trace" then .borderline
  else .normal

/-- Glucose status: any positive amount is abnormal. -/
def uriGlucoseStatus (values : Values) : Status :=
  if jgt (uriGlucose values) 0 then .abnormal else .normal

/-- Pus cell status (abnormal above 15 per HPF, borderline at 6 and
above). -/
def uriPusCellsStatus (values : Values) : Status :=
  if jgt (uriPusCells values) 15 then .abnormal
  else if jge (uriPusCells values) 6 then .borderline
  else .normal

/-- Red cell status (abnormal above 15 per HPF, borderline at 4 and
above). -/
def uriRedCellsStatus (values : Values) : Status :=
  if jgt (uriRedCells values) 15 then .abnormal
  else if jge (uriRedCells values) 4 then .borderline
  else .normal

/-- Bacteria status: many or moderate abnormal, few borderline. -/
def uriBacteriaStatus (values : Values) : Status :=
  if uriBacteria values = "many" ∨ uriBacteria values = "moderate" then .abnormal
  else if uriBacteria values = "few" then .borderline
  else .normal

/-- The specialist referrals pushed during urinalysis classification, in
source order with the source's deduplication checks. -/
def uriSpecialistsPre (values : Values) : List Specialist :=
  let s1 : List Specialist :=
    if jlt (uriPh values) 4.5 then [⟨"Nephrologist", .soon⟩]
    else if jgt (uriPh values) 8.0 then [⟨"Nephrologist", .soon⟩]
    else []
  let s2 :=
    if jlt (uriSpecificGravity values) 1.005 then s1 ++ [⟨"Nephrologist", .soon⟩]
    else if jgt (uriSpecificGravity values) 1.030 then
      if hasType s1 "Nephrologist" then s1 else s1 ++ [⟨"Nephrologist", .soon⟩]
    else s1
  let s3 :=
    if uriProtein values = "positive" then
      if hasType s2 "Nephrologist" then s2 else s2 ++ [⟨"Nephrologist", .urgent⟩]
    else if uriProtein values = "trace" then
      if hasType s2 "Nephrologist" then s2 else s2 ++ [⟨"Nephrologist", .routine⟩]
    else s2
  let s4 :=
    if jgt (uriGlucose values) 0 then
      if hasType s3 "Endocrinologist" then s3 else s3 ++ [⟨"Endocrinologist", .soon⟩]
    else s3
  let s5 :=
    if jgt (uriPusCells values) 15 then
      if hasType s4 "Urologist" || hasType s4 "Nephrologist" then s4
      else s4 ++ [⟨"Urologist", .urgent⟩]
    else if jge (uriPusCells values) 6 then
      if hasType s4 "Urologist" then s4 else s4 ++ [⟨"Urologist", .soon⟩]
    else s4
  let s6 :=
    if jgt (uriRedCells values) 15 then
      if hasType s5 "Urologist" || hasType s5 "Nephrologist" then s5
      else s5 ++ [⟨"Urologist", .urgent⟩]
    else if jge (uriRedCells values) 4 then
      if hasType s5 "Urologist" then s5 else s5 ++ [⟨"Urologist", .soon⟩]
    else s5
  s6

/-- The urinalysis labValueBreakdown, in source push order (pH, color,
clarity, specific gravity, protein, glucose, pus cells, red cells,
bacteria); the color entry always has status normal. -/
def uriBreakdown (values : Values) : List LabValue :=
  [ ⟨"Urine pH", jsToFixed (uriPh values) 1, uriPhStatus values⟩,
    ⟨"Color", capFirst (uriColor values), .normal⟩,
    ⟨"Transparency/Clarity", capFirst (uriClarity values), uriClarityStatus values⟩,
    ⟨"Specific Gravity", jsToFixed (uriSpecificGravity values) 3, uriSgStatus values⟩,
    ⟨"Protein", capFirst (uriProtein values), uriProteinStatus values⟩,
    ⟨"Sugar/Glucose", (if jgt (uriGlucose values) 0 then "Positive" else "Negative"),
      uriGlucoseStatus values⟩,
    ⟨"Pus Cells (WBC)", jsToFixed (uriPusCells values) 0 ++ "/HPF",
      uriPusCellsStatus values⟩,
    ⟨"Red Cells (RBC)", jsToFixed (uriRedCells values) 0 ++ "/HPF",
      uriRedCellsStatus values⟩,
    ⟨"Bacteria", capFirst (uriBacteria values), uriBacteriaStatus values⟩ ]

/-- abnormalCount derived from the urinalysis breakdown. -/
def uriAbnormalCount (values : Values) : ℕ :=
  ((uriBreakdown values).filter (fun b => b.status = .abnormal)).length

/-- borderlineCount derived from the urinalysis breakdown. -/
def uriBorderlineCount (values : Values) : ℕ :=
  ((uriBreakdown values).filter (fun b => b.status = .borderline)).length

/-- urgentCount for the urinalysis panel. -/
def uriUrgentCount (values : Values) : ℕ :=
  ((uriSpecialistsPre values).filter (fun s => s.urgency = .urgent)).length

/-- soonCount for the urinalysis panel. -/
def uriSoonCount (values : Values) : ℕ :=
  ((uriSpecialistsPre values).filter (fun s => s.urgency = .soon)).length

/-- The urinalysis narrative branch: the all-normal branch additionally
requires the external risk level to be low; the borderline-only
(preventive) branch fires whenever there are no abnormal findings and at
least one borderline one, whatever the external assessment. -/
def uriNarrative (values : Values) (ml : MLRisk) : Narrative :=
  if uriAbnormalCount values = 0 ∧ uriBorderlineCount values = 0 ∧
      ml.riskLevel = .low then .allNormal
  else if uriAbnormalCount values = 0 ∧ 0 < uriBorderlineCount values then
    .borderlineOnly
  else .enumerative

/-- The final urinalysis referral list: the all-normal branch (which also
requires low external risk) pushes a routine General Practitioner
referral, then the never-empty fallback applies. -/
def uriFinalSpecialists (values : Values) (ml : MLRisk) : List Specialist :=
  let specialists1 :=
    if uriAbnormalCount values = 0 ∧ uriBorderlineCount values = 0 ∧
        ml.riskLevel = .low then
      uriSpecialistsPre values ++ [⟨"General Practitioner", .routine⟩]
    else uriSpecialistsPre values
  if specialists1.isEmpty then [⟨"General Practitioner", .routine⟩] else specialists1

/-- analyzeUrinalysisRules. -/
def analyzeUrinalysisRules (values : Values) (ml : MLRisk) : Analysis :=
  let risk := calculateCombinedRiskAssessment ml
    (uriAbnormalCount values) (uriBorderlineCount values)
    (uriUrgentCount values) (uriSoonCount values)
  { detailedFindings := uriNarrative values ml,
    labValueBreakdown := uriBreakdown values,
    suggestedSpecialists := uriFinalSpecialists values ml,
    correctedRiskLevel := risk.1,
    correctedRiskScore := risk.2 }

/-! ## Generic fallback panel and dispatch -/

/-- analyzeGenericRules: every supplied key becomes a normal-status
finding with a pass-through value, no specialists are suggested, and the
ML assessment is passed through unchanged. -/
def analyzeGenericRules (values : Values) (ml : MLRisk) : Analysis :=
  { detailedFindings := .generic,
    labValueBreakdown := values.map (fun p =>
      ⟨p.1.toUpper, jsStringOfRaw p.2, .normal⟩),
    suggestedSpecialists := [],
    correctedRiskLevel := ml.riskLevel,
    correctedRiskScore := ml.riskScore }

/-- generateRulesBasedAnalysis: dispatch on the lowercased, trimmed lab
type string. -/
def generateRulesBasedAnalysis (labType : String) (values : Values) (ml : MLRisk) :
    Analysis :=
  let t := labType.toLower.trim
  if t = "cbc" then analyzeCBCRules values ml
  else if t = "lipid" ∨ t = "lipid profile" then analyzeLipidProfileRules values ml
  else if t = "urinalysis" then analyzeUrinalysisRules values ml
  else analyzeGenericRules values ml

/-! ## Reference definition of the fusion algorithm, from the spec

specRiskFusion follows the words of spec section 4.4 step by step, to be
compared against the embedded calculateCombinedRiskAssessment. -/

/-- Spec section 4.4 step 2: the ordered clinical tier list, first
matching rule wins. -/
def specClinicalTier (abnormalCount borderlineCount urgentCount soonCount : ℕ) :
    ℕ × ℚ :=
  if 0 < urgentCount ∨ 3 ≤ abnormalCount then
    (2, min 100 (75 + 5 * (abnormalCount : ℚ) + 10 * (urgentCount : ℚ)))
  else if 0 < soonCount ∨ 2 ≤ abnormalCount then
    (1, min 100 (50 + 5 * (abnormalCount : ℚ) + 5 * (soonCount : ℚ)))
  else if 1 ≤ abnormalCount ∨ 2 ≤ borderlineCount then
    (1, min 100 (40 + 3 * (abnormalCount : ℚ) + 2 * (borderlineCount : ℚ)))
  else if 1 ≤ borderlineCount then
    (0, 25 + 2 * (borderlineCount : ℚ))
  else
    (0, 15)

/-- Spec section 4.4: map the external level to a rank, take the first
matching clinical tier, fuse by max, cap the score at 100, and map the
fused rank back to a level. -/
def specRiskFusion (ml : MLRisk) (abnormalCount borderlineCount urgentCount soonCount : ℕ) :
    RiskLevel × ℚ :=
  let externalRank : ℕ :=
    match ml.riskLevel with
    | .low => 0
    | .moderate => 1
    | .high => 2
  let clinical := specClinicalTier abnormalCount borderlineCount urgentCount soonCount
  let fusedRank := max externalRank clinical.1
  let fusedScore := min 100 (max ml.riskScore clinical.2)
  ((if fusedRank = 2 then .high else if fusedRank = 1 then .moderate else .low),
    fusedScore)

/-! ## Lemmas about the combinator -/

theorem riskRank_le_two (l : RiskLevel) : riskRank l ≤ 2 := by
  cases l <;> simp [riskRank]

theorem clinicalRisk_rank_le_two (a b u s : ℕ) : (clinicalRisk a b u s).1 ≤ 2 := by
  unfold clinicalRisk
  split_ifs <;> norm_num

theorem clinicalRisk_score_le_100 (a b u s : ℕ) : (clinicalRisk a b u s).2 ≤ 100 := by
  unfold clinicalRisk
  split_ifs with h1 h2 h3 h4
  · simp
  · simp
  · simp
  · push_neg at h3
    have hb : b = 1 := by omega
    subst hb
    norm_num
  · norm_num

theorem riskRank_rankToLevel (n : ℕ) (h : n ≤ 2) : riskRank (rankToLevel n) = n := by
  interval_cases n <;> rfl

theorem calc_rank_eq (ml : MLRisk) (a b u s : ℕ) :
    riskRank (calculateCombinedRiskAssessment ml a b u s).1 =
      max (riskRank ml.riskLevel) (clinicalRisk a b u s).1 := by
  simp only [calculateCombinedRiskAssessment]
  exact riskRank_rankToLevel _
    (max_le (riskRank_le_two _) (clinicalRisk_rank_le_two a b u s))

theorem calc_score_eq (ml : MLRisk) (a b u s : ℕ) (h : ml.riskScore ≤ 100) :
    (calculateCombinedRiskAssessment ml a b u s).2 =
      max ml.riskScore (clinicalRisk a b u s).2 := by
  simp only [calculateCombinedRiskAssessment]
  exact min_eq_right (max_le h (clinicalRisk_score_le_100 a b u s))

theorem calc_score_le_100 (ml : MLRisk) (a b u s : ℕ) :
    (calculateCombinedRiskAssessment ml a b u s).2 ≤ 100 := by
  simp only [calculateCombinedRiskAssessment]
  exact min_le_left _ _

theorem calc_high_of (ml : MLRisk) (a b u s : ℕ) (h : 0 < u ∨ 3 ≤ a) :
    (calculateCombinedRiskAssessment ml a b u s).1 = .high := by
  have hr : (clinicalRisk a b u s).1 = 2 := by
    unfold clinicalRisk
    rw [if_pos h]
  simp only [calculateCombinedRiskAssessment, hr]
  have h2 : 2 ≤ max (riskRank ml.riskLevel) 2 := le_max_right _ _
  simp [rankToLevel, h2]

/-! ## Claim theorems -/

theorem specClinicalTier_eq_clinicalRisk (a b u s : ℕ) :
    specClinicalTier a b u s = clinicalRisk a b u s := by
  unfold specClinicalTier clinicalRisk
  split_ifs <;> simp [Prod.ext_iff] <;> ring_nf

theorem rankToLevel_cases (n : ℕ) (h : n ≤ 2) :
    rankToLevel n =
      (if n = 2 then RiskLevel.high else if n = 1 then .moderate else .low) := by
  interval_cases n <;> rfl

/-- C3: the embedded combinator computes exactly the ordered-tier clinical
rank and score of spec section 4.4 step 2 and fuses them with the external
assessment by fused rank = max of ranks and fused score =
min(100, max(external score, clinical score)), for all natural-number
counts and every external assessment. -/
theorem c3_exact_fusion_algorithm (ml : MLRisk) (a b u s : ℕ) :
    calculateCombinedRiskAssessment ml a b u s = specRiskFusion ml a b u s := by
  rcases ml with ⟨lvl, sc⟩
  have hrank : (match lvl with
      | RiskLevel.low => (0 : ℕ)
      | RiskLevel.moderate => 1
      | RiskLevel.high => 2) = riskRank lvl := by
    cases lvl <;> rfl
  simp only [calculateCombinedRiskAssessment, specRiskFusion,
    specClinicalTier_eq_clinicalRisk, hrank, Prod.mk.injEq]
  refine ⟨?_, ?_⟩
  · exact rankToLevel_cases _
      (max_le (riskRank_le_two lvl) (clinicalRisk_rank_le_two a b u s))
  · trivial

theorem combinator_monotone (ml : MLRisk) (a b u s : ℕ) (h1 : ml.riskScore ≤ 100) :
    riskRank ml.riskLevel ≤ riskRank (calculateCombinedRiskAssessment ml a b u s).1 ∧
    (clinicalRisk a b u s).1 ≤ riskRank (calculateCombinedRiskAssessment ml a b u s).1 ∧
    ml.riskScore ≤ (calculateCombinedRiskAssessment ml a b u s).2 ∧
    (clinicalRisk a b u s).2 ≤ (calculateCombinedRiskAssessment ml a b u s).2 ∧
    (calculateCombinedRiskAssessment ml a b u s).2 ≤ 100 := by
  rw [calc_rank_eq, calc_score_eq ml a b u s h1]
  exact ⟨le_max_left _ _, le_max_right _ _, le_max_left _ _, le_max_right _ _,
    max_le h1 (clinicalRisk_score_le_100 a b u s)⟩

/-- C1 counterexample: on the generic fallback path the external
assessment is passed through unchanged, so with external score 10 the
returned correctedRiskScore (10) is strictly below the rule-derived
clinical score of the analysis's own classification counts (all zero,
giving the floor score 15). -/
theorem c1_counterexample :
    (analyzeGenericRules [("a", RawValue.num 1)] ⟨.low, 10⟩).correctedRiskScore <
      (clinicalRisk
        (((analyzeGenericRules [("a", RawValue.num 1)] ⟨.low, 10⟩).labValueBreakdown.filter
            (fun b => b.status = .abnormal)).length)
        (((analyzeGenericRules [("a", RawValue.num 1)] ⟨.low, 10⟩).labValueBreakdown.filter
            (fun b => b.status = .borderline)).length)
        (((analyzeGenericRules [("a", RawValue.num 1)] ⟨.low, 10⟩).suggestedSpecialists.filter
            (fun sp => sp.urgency = .urgent)).length)
        (((analyzeGenericRules [("a", RawValue.num 1)] ⟨.low, 10⟩).suggestedSpecialists.filter
            (fun sp => sp.urgency = .soon)).length)).2 := by
  decide

/-- C1 (amended to the CBC, lipid and urinalysis panels, which are the
ones that run the fusion combinator): for every values mapping and every
external assessment with score in [0,100], the returned
correctedRiskLevel's rank is at least both the external rank and the
rule-derived clinical rank of the analysis's classification counts, and
correctedRiskScore is at least max(external score, rule-derived score)
and capped at 100. -/
theorem c1_safety_monotonicity (values : Values) (ml : MLRisk)
    (_h0 : 0 ≤ ml.riskScore) (h1 : ml.riskScore ≤ 100) :
    (riskRank ml.riskLevel ≤ riskRank (analyzeCBCRules values ml).correctedRiskLevel ∧
      (clinicalRisk (cbcAbnormalCount values) (cbcBorderlineCount values)
          (cbcUrgentCount values) (cbcSoonCount values)).1 ≤
        riskRank (analyzeCBCRules values ml).correctedRiskLevel ∧
      ml.riskScore ≤ (analyzeCBCRules values ml).correctedRiskScore ∧
      (clinicalRisk (cbcAbnormalCount values) (cbcBorderlineCount values)
          (cbcUrgentCount values) (cbcSoonCount values)).2 ≤
        (analyzeCBCRules values ml).correctedRiskScore ∧
      (analyzeCBCRules values ml).correctedRiskScore ≤ 100) ∧
    (riskRank ml.riskLevel ≤
        riskRank (analyzeLipidProfileRules values ml).correctedRiskLevel ∧
      (clinicalRisk (lipidAbnormalCount values) (lipidBorderlineCount values)
          (lipidUrgentCount values) (lipidSoonCount values)).1 ≤
        riskRank (analyzeLipidProfileRules values ml).correctedRiskLevel ∧
      ml.riskScore ≤ (analyzeLipidProfileRules values ml).correctedRiskScore ∧
      (clinicalRisk (lipidAbnormalCount values) (lipidBorderlineCount values)
          (lipidUrgentCount values) (lipidSoonCount values)).2 ≤
        (analyzeLipidProfileRules values ml).correctedRiskScore ∧
      (analyzeLipidProfileRules values ml).correctedRiskScore ≤ 100) ∧
    (riskRank ml.riskLevel ≤
        riskRank (analyzeUrinalysisRules values ml).correctedRiskLevel ∧
      (clinicalRisk (uriAbnormalCount values) (uriBorderlineCount values)
          (uriUrgentCount values) (uriSoonCount values)).1 ≤
        riskRank (analyzeUrinalysisRules values ml).correctedRiskLevel ∧
      ml.riskScore ≤ (analyzeUrinalysisRules values ml).correctedRiskScore ∧
      (clinicalRisk (uriAbnormalCount values) (uriBorderlineCount values)
          (uriUrgentCount values) (uriSoonCount values)).2 ≤
        (analyzeUrinalysisRules values ml).correctedRiskScore ∧
      (analyzeUrinalysisRules values ml).correctedRiskScore ≤ 100) :=
  ⟨combinator_monotone ml _ _ _ _ h1,
   combinator_monotone ml _ _ _ _ h1,
   combinator_monotone ml _ _ _ _ h1⟩

theorem c1_witness :
    (0 : ℚ) ≤ 10 ∧ (10 : ℚ) ≤ 100 ∧
    riskRank (⟨RiskLevel.low, 10⟩ : MLRisk).riskLevel ≤
      riskRank (analyzeCBCRules [] ⟨.low, 10⟩).correctedRiskLevel :=
  ⟨by norm_num, by norm_num,
   (c1_safety_monotonicity [] ⟨.low, 10⟩ (by norm_num) (by norm_num)).1.1⟩

/-- C2: for each of the CBC, lipid and urinalysis panels, if the derived
urgentReferralCount is positive or the derived abnormalCount is at least
3, the returned correctedRiskLevel is high for every external
assessment. -/
theorem c2_high_risk_forcing (values : Values) (ml : MLRisk) :
    (0 < cbcUrgentCount values ∨ 3 ≤ cbcAbnormalCount values →
      (analyzeCBCRules values ml).correctedRiskLevel = .high) ∧
    (0 < lipidUrgentCount values ∨ 3 ≤ lipidAbnormalCount values →
      (analyzeLipidProfileRules values ml).correctedRiskLevel = .high) ∧
    (0 < uriUrgentCount values ∨ 3 ≤ uriAbnormalCount values →
      (analyzeUrinalysisRules values ml).correctedRiskLevel = .high) :=
  ⟨fun h => calc_high_of ml _ _ _ _ h,
   fun h => calc_high_of ml _ _ _ _ h,
   fun h => calc_high_of ml _ _ _ _ h⟩

theorem c2_witness :
    0 < uriUrgentCount [("leukocyte_esterase", RawValue.num 20)] ∧
    (analyzeUrinalysisRules [("leukocyte_esterase", RawValue.num 20)]
        ⟨.low, 5⟩).correctedRiskLevel = .high :=
  ⟨by with_unfolding_all decide,
   (c2_high_risk_forcing [("leukocyte_esterase", RawValue.num 20)] ⟨.low, 5⟩).2.2
     (Or.inl (by with_unfolding_all decide))⟩

theorem fallback_ne_nil (l : List Specialist) :
    (if l.isEmpty then [(⟨"General Practitioner", .routine⟩ : Specialist)] else l) ≠
      [] := by
  cases l <;> simp

/-- C4 counterexample: an unrecognized panel type is routed to the generic
path, whose suggestedSpecialists list is empty, so the referral list is
not non-empty for every panel type tag. -/
theorem c4_counterexample :
    (generateRulesBasedAnalysis "panel-x" [("a", RawValue.num 1)]
        ⟨.low, 10⟩).suggestedSpecialists = [] := by
  with_unfolding_all decide

/-- C4 (amended to the CBC, lipid and urinalysis panels): for every values
mapping and external assessment the suggestedSpecialists list is
non-empty, because a routine General Practitioner referral is appended
whenever the panel logic produced none; the generic path instead returns
an empty referral list. -/
theorem c4_referral_nonempty (values : Values) (ml : MLRisk) :
    (analyzeCBCRules values ml).suggestedSpecialists ≠ [] ∧
    (analyzeLipidProfileRules values ml).suggestedSpecialists ≠ [] ∧
    (analyzeUrinalysisRules values ml).suggestedSpecialists ≠ [] :=
  ⟨fallback_ne_nil _, fallback_ne_nil _, fallback_ne_nil _⟩

/-- C5 counterexample: on Scenario A (CBC with only wbc = 3.0, external
low risk with score 10) the returned correctedRiskScore is not 43. -/
theorem c5_counterexample :
    (analyzeCBCRules [("wbc", RawValue.num 3)] ⟨.low, 10⟩).correctedRiskScore ≠ 43 := by
  with_unfolding_all decide

/-- C5 (amended): on Scenario A the WBC finding is abnormal, a
Hematologist referral with urgency soon is present and abnormalCount is 1,
but that soon referral makes the second clinical tier fire first
(soonReferralCount positive), giving clinical score
min(100, 50 + 5 + 5) = 60, so the fused result is moderate with
correctedRiskScore 60, not 43. -/
theorem c5_scenario_a :
    cbcWbcStatus [("wbc", RawValue.num 3)] = .abnormal ∧
    (⟨"Hematologist", .soon⟩ : Specialist) ∈
      (analyzeCBCRules [("wbc", RawValue.num 3)] ⟨.low, 10⟩).suggestedSpecialists ∧
    cbcAbnormalCount [("wbc", RawValue.num 3)] = 1 ∧
    cbcSoonCount [("wbc", RawValue.num 3)] = 1 ∧
    (analyzeCBCRules [("wbc", RawValue.num 3)] ⟨.low, 10⟩).correctedRiskLevel =
      .moderate ∧
    (analyzeCBCRules [("wbc", RawValue.num 3)] ⟨.low, 10⟩).correctedRiskScore = 60 := by
  with_unfolding_all decide

/-- C6: for every lab type string whose lowercased, trimmed form is not
cbc, lipid, lipid profile or urinalysis, the result passes the external
assessment through exactly, and every key of the values mapping appears
once, in order, as a normal-status finding. -/
theorem c6_generic_pass_through (labType : String) (values : Values) (ml : MLRisk)
    (h1 : labType.toLower.trim ≠ "cbc") (h2 : labType.toLower.trim ≠ "lipid")
    (h3 : labType.toLower.trim ≠ "lipid profile")
    (h4 : labType.toLower.trim ≠ "urinalysis") :
    (generateRulesBasedAnalysis labType values ml).correctedRiskLevel = ml.riskLevel ∧
    (generateRulesBasedAnalysis labType values ml).correctedRiskScore = ml.riskScore ∧
    (generateRulesBasedAnalysis labType values ml).labValueBreakdown.map
        (fun f => f.parameter) = values.map (fun p => p.1.toUpper) ∧
    ∀ f ∈ (generateRulesBasedAnalysis labType values ml).labValueBreakdown,
      f.status = .normal := by
  have hlip : ¬(labType.toLower.trim = "lipid" ∨ labType.toLower.trim = "lipid profile") := by
    rintro (h | h)
    · exact h2 h
    · exact h3 h
  have hg : generateRulesBasedAnalysis labType values ml = analyzeGenericRules values ml := by
    simp only [generateRulesBasedAnalysis]
    rw [if_neg h1, if_neg hlip, if_neg h4]
  rw [hg]
  refine ⟨rfl, rfl, ?_, ?_⟩
  · simp [analyzeGenericRules, List.map_map]
  · intro f hf
    simp only [analyzeGenericRules, List.mem_map] at hf
    obtain ⟨p, _, rfl⟩ := hf
    rfl

theorem c6_witness :
    "glucose".toLower.trim ≠ "cbc" ∧ "glucose".toLower.trim ≠ "lipid" ∧
    "glucose".toLower.trim ≠ "lipid profile" ∧ "glucose".toLower.trim ≠ "urinalysis" ∧
    (generateRulesBasedAnalysis "glucose"
        [("a", RawValue.str "x"), ("b", RawValue.num 2)]
        ⟨.moderate, 55⟩).correctedRiskScore = 55 :=
  ⟨by with_unfolding_all decide, by with_unfolding_all decide,
   by with_unfolding_all decide, by with_unfolding_all decide,
   (c6_generic_pass_through "glucose" [("a", RawValue.str "x"), ("b", RawValue.num 2)]
     ⟨.moderate, 55⟩ (by with_unfolding_all decide) (by with_unfolding_all decide)
     (by with_unfolding_all decide) (by with_unfolding_all decide)).2.1⟩

/-- C7 counterexample: for the non-numeric string value "abc" the
normalized WBC is NaN, not the documented default 7.5, and the WBC finding
is displayed as NaN with status normal. -/
theorem c7_counterexample :
    cbcWbc [("wbc", RawValue.str "abc")] = none ∧
    (analyzeCBCRules [("wbc", RawValue.str "abc")] ⟨.low, 10⟩).labValueBreakdown.head? =
      some ⟨"White Blood Cell Count (WBC)", "NaN K/uL", .normal⟩ := by
  with_unfolding_all decide

theorem normPattern_default (values : Values) (key : String) (d : ℚ)
    (h : lookupV values key = none ∨ lookupV values key = some (.str "") ∨
      lookupV values key = some (.num 0)) :
    parseFloatRaw (jsOrV (lookupV values key) (.num d)) = some d := by
  rcases h with h | h | h <;> simp [h, jsOrV, falsyV, parseFloatRaw]

theorem normPattern_nan (values : Values) (key : String) (d : ℚ) (s : String)
    (h : lookupV values key = some (.str s)) (hs : s ≠ "")
    (hp : jsParseFloat s = none) :
    parseFloatRaw (jsOrV (lookupV values key) (.num d)) = none := by
  simp [h, jsOrV, falsyV, hs, parseFloatRaw, hp]

/-- C7 (amended): for every CBC numeric parameter, the documented clinical
default is substituted only when the raw value is absent or falsy (absent
key, empty string, or the number 0); a non-empty string that fails
floating-point parsing instead yields NaN, every threshold comparison with
NaN is false so the finding is classified normal and displayed as NaN (the
platelets case additionally requires that the string not contain the
adequate sentinel, and a NaN stab-cell fraction suppresses the stab
finding entirely); no exception is raised in either case. -/
theorem c7_default_substitution (values : Values) :
    ((lookupV values "wbc" = none ∨ lookupV values "wbc" = some (.str "") ∨
        lookupV values "wbc" = some (.num 0)) → cbcWbc values = some 7.5) ∧
    (∀ s, lookupV values "wbc" = some (.str s) → s ≠ "" → jsParseFloat s = none →
      cbcWbc values = none ∧ cbcWbcStatus values = .normal ∧
      jsToFixed (cbcWbc values) 1 ++ " K/uL" = "NaN K/uL") ∧
    ((lookupV values "rbc" = none ∨ lookupV values "rbc" = some (.str "") ∨
        lookupV values "rbc" = some (.num 0)) → cbcRbc values = some 4.7) ∧
    (∀ s, lookupV values "rbc" = some (.str s) → s ≠ "" → jsParseFloat s = none →
      cbcRbc values = none ∧ cbcRbcStatus values = .normal ∧
      jsToFixed (cbcRbc values) 2 ++ " M/uL" = "NaN M/uL") ∧
    ((lookupV values "hemoglobin" = none ∨
        lookupV values "hemoglobin" = some (.str "") ∨
        lookupV values "hemoglobin" = some (.num 0)) →
      cbcHemoglobin values = some 14.0) ∧
    (∀ s, lookupV values "hemoglobin" = some (.str s) → s ≠ "" →
      jsParseFloat s = none →
      cbcHemoglobin values = none ∧ cbcHbStatus values = .normal ∧
      jsToFixed (cbcHemoglobin values) 1 ++ " g/dL" = "NaN g/dL") ∧
    ((lookupV values "hematocrit" = none ∨
        lookupV values "hematocrit" = some (.str "") ∨
        lookupV values "hematocrit" = some (.num 0)) →
      cbcHematocrit values = some 42.0) ∧
    (∀ s, lookupV values "hematocrit" = some (.str s) → s ≠ "" →
      jsParseFloat s = none →
      cbcHematocrit values = none ∧ cbcHctStatus values = .normal ∧
      jsToFixed (cbcHematocrit values) 1 ++ "%" = "NaN%") ∧
    ((lookupV values "platelets" = none ∨
        lookupV values "platelets" = some (.str "") ∨
        lookupV values "platelets" = some (.num 0)) →
      cbcPlatelets values = some 250) ∧
    (∀ s, lookupV values "platelets" = some (.str s) → s ≠ "" →
      jsParseFloat s = none → strHasSub s.toLower "adequate" = false →
      cbcPlatelets values = none ∧ cbcPltStatus values = .normal ∧
      (if cbcPlateletsAdequate values then "Adequate"
       else jsToFixed (cbcPlatelets values) 0 ++ " K/uL") = "NaN K/uL") ∧
    ((lookupV values "neutrophils" = none ∨
        lookupV values "neutrophils" = some (.str "") ∨
        lookupV values "neutrophils" = some (.num 0)) →
      cbcNeutrophils values = some 0.60) ∧
    (∀ s, lookupV values "neutrophils" = some (.str s) → s ≠ "" →
      jsParseFloat s = none →
      cbcNeutrophils values = none ∧ cbcNeutStatus values = .normal ∧
      jsToFixed (jmul (cbcNeutrophils values) 100) 0 ++ "%" = "NaN%") ∧
    ((lookupV values "stab_cells" = none ∨
        lookupV values "stab_cells" = some (.str "") ∨
        lookupV values "stab_cells" = some (.num 0)) →
      cbcStabCells values = some 0) ∧
    (∀ s, lookupV values "stab_cells" = some (.str s) → s ≠ "" →
      jsParseFloat s = none →
      cbcStabCells values = none ∧ cbcStabStatus values = .normal ∧
      jgt (cbcStabCells values) 0 = false) ∧
    ((lookupV values "lymphocytes" = none ∨
        lookupV values "lymphocytes" = some (.str "") ∨
        lookupV values "lymphocytes" = some (.num 0)) →
      cbcLymphocytes values = some 0.30) ∧
    (∀ s, lookupV values "lymphocytes" = some (.str s) → s ≠ "" →
      jsParseFloat s = none →
      cbcLymphocytes values = none ∧ cbcLymphStatus values = .normal ∧
      jsToFixed (jmul (cbcLymphocytes values) 100) 0 ++ "%" = "NaN%") ∧
    ((lookupV values "monocytes" = none ∨
        lookupV values "monocytes" = some (.str "") ∨
        lookupV values "monocytes" = some (.num 0)) →
      cbcMonocytes values = some 0.05) ∧
    (∀ s, lookupV values "monocytes" = some (.str s) → s ≠ "" →
      jsParseFloat s = none →
      cbcMonocytes values = none ∧ cbcMonoStatus values = .normal ∧
      jsToFixed (jmul (cbcMonocytes values) 100) 0 ++ "%" = "NaN%") ∧
    ((lookupV values "eosinophils" = none ∨
        lookupV values "eosinophils" = some (.str "") ∨
        lookupV values "eosinophils" = some (.num 0)) →
      cbcEosinophils values = some 0.03) ∧
    (∀ s, lookupV values "eosinophils" = some (.str s) → s ≠ "" →
      jsParseFloat s = none →
      cbcEosinophils values = none ∧ cbcEosinStatus values = .normal ∧
      jsToFixed (jmul (cbcEosinophils values) 100) 0 ++ "%" = "NaN%") ∧
    ((lookupV values "basophils" = none ∨
        lookupV values "basophils" = some (.str "") ∨
        lookupV values "basophils" = some (.num 0)) →
      cbcBasophils values = some 0.01) ∧
    (∀ s, lookupV values "basophils" = some (.str s) → s ≠ "" →
      jsParseFloat s = none →
      cbcBasophils values = none ∧ cbcBasoStatus values = .normal ∧
      jsToFixed (jmul (cbcBasophils values) 100) 0 ++ "%" = "NaN%") := by
  refine ⟨?_, ?_, ?_, ?_, ?_, ?_, ?_, ?_, ?_, ?_, ?_, ?_, ?_, ?_, ?_, ?_, ?_, ?_,
    ?_, ?_, ?_, ?_⟩
  · exact fun h => normPattern_default values "wbc" 7.5 h
  · intro s h hs hp
    have hw : cbcWbc values = none := normPattern_nan values "wbc" 7.5 s h hs hp
    refine ⟨hw, ?_, ?_⟩
    · simp [cbcWbcStatus, hw, jlt, jgt]
    · simp only [hw]
      with_unfolding_all rfl
  · exact fun h => normPattern_default values "rbc" 4.7 h
  · intro s h hs hp
    have hw : cbcRbc values = none := normPattern_nan values "rbc" 4.7 s h hs hp
    refine ⟨hw, ?_, ?_⟩
    · simp [cbcRbcStatus, hw, jlt, jgt]
    · simp only [hw]
      with_unfolding_all rfl
  · exact fun h => normPattern_default values "hemoglobin" 14.0 h
  · intro s h hs hp
    have hw : cbcHemoglobin values = none :=
      normPattern_nan values "hemoglobin" 14.0 s h hs hp
    refine ⟨hw, ?_, ?_⟩
    · simp [cbcHbStatus, hw, jlt, jgt]
    · simp only [hw]
      with_unfolding_all rfl
  · exact fun h => normPattern_default values "hematocrit" 42.0 h
  · intro s h hs hp
    have hw : cbcHematocrit values = none :=
      normPattern_nan values "hematocrit" 42.0 s h hs hp
    refine ⟨hw, ?_, ?_⟩
    · simp [cbcHctStatus, hw, jlt, jgt]
    · simp only [hw]
      with_unfolding_all rfl
  · intro h
    have hq : cbcPlateletsAdequate values = false := by
      rcases h with h | h | h
      · simp [cbcPlateletsAdequate, h]
      · simp only [cbcPlateletsAdequate, h]
        with_unfolding_all decide
      · simp [cbcPlateletsAdequate, h]
    have hd := normPattern_default values "platelets" 250 h
    simp [cbcPlatelets, hq, hd]
  · intro s h hs hp hna
    have hq : cbcPlateletsAdequate values = false := by
      simp [cbcPlateletsAdequate, h, hna]
    have hw : cbcPlatelets values = none := by
      have hn := normPattern_nan values "platelets" 250 s h hs hp
      simp [cbcPlatelets, hq, hn]
    refine ⟨hw, ?_, ?_⟩
    · simp [cbcPltStatus, hw, jlt, jgt]
    · simp only [hq, hw]
      with_unfolding_all rfl
  · exact fun h => normPattern_default values "neutrophils" 0.60 h
  · intro s h hs hp
    have hw : cbcNeutrophils values = none :=
      normPattern_nan values "neutrophils" 0.60 s h hs hp
    refine ⟨hw, ?_, ?_⟩
    · simp [cbcNeutStatus, hw, jlt, jgt]
    · simp only [hw]
      with_unfolding_all rfl
  · exact fun h => normPattern_default values "stab_cells" 0 h
  · intro s h hs hp
    have hw : cbcStabCells values = none :=
      normPattern_nan values "stab_cells" 0 s h hs hp
    refine ⟨hw, ?_, ?_⟩
    · simp [cbcStabStatus, hw, jlt, jgt]
    · simp only [hw]
      with_unfolding_all rfl
  · exact fun h => normPattern_default values "lymphocytes" 0.30 h
  · intro s h hs hp
    have hw : cbcLymphocytes values = none :=
      normPattern_nan values "lymphocytes" 0.30 s h hs hp
    refine ⟨hw, ?_, ?_⟩
    · simp [cbcLymphStatus, hw, jlt, jgt]
    · simp only [hw]
      with_unfolding_all rfl
  · exact fun h => normPattern_default values "monocytes" 0.05 h
  · intro s h hs hp
    have hw : cbcMonocytes values = none :=
      normPattern_nan values "monocytes" 0.05 s h hs hp
    refine ⟨hw, ?_, ?_⟩
    · simp [cbcMonoStatus, hw, jlt, jgt, jeq]
    · simp only [hw]
      with_unfolding_all rfl
  · exact fun h => normPattern_default values "eosinophils" 0.03 h
  · intro s h hs hp
    have hw : cbcEosinophils values = none :=
      normPattern_nan values "eosinophils" 0.03 s h hs hp
    refine ⟨hw, ?_, ?_⟩
    · simp [cbcEosinStatus, hw, jlt, jgt]
    · simp only [hw]
      with_unfolding_all rfl
  · exact fun h => normPattern_default values "basophils" 0.01 h
  · intro s h hs hp
    have hw : cbcBasophils values = none :=
      normPattern_nan values "basophils" 0.01 s h hs hp
    refine ⟨hw, ?_, ?_⟩
    · simp [cbcBasoStatus, hw, jlt, jgt]
    · simp only [hw]
      with_unfolding_all rfl

theorem c7_witness :
    jsParseFloat "abc" = none ∧
    cbcWbc [("wbc", RawValue.str "abc")] = none ∧
    cbcWbcStatus [("wbc", RawValue.str "abc")] = .normal ∧
    cbcHemoglobin [("wbc", RawValue.str "abc")] = some 14.0 :=
  ⟨by with_unfolding_all decide,
   ((c7_default_substitution [("wbc", RawValue.str "abc")]).2.1 "abc"
     (by with_unfolding_all decide) (by with_unfolding_all decide)
     (by with_unfolding_all decide)).1,
   ((c7_default_substitution [("wbc", RawValue.str "abc")]).2.1 "abc"
     (by with_unfolding_all decide) (by with_unfolding_all decide)
     (by with_unfolding_all decide)).2.1,
   (c7_default_substitution [("wbc", RawValue.str "abc")]).2.2.2.2.1
     (Or.inl (by with_unfolding_all decide))⟩

/-- C8 counterexample: with every urinalysis value at its default all
counts are zero, yet with an external high-risk assessment the all-normal
summary branch is not produced, so branch selection does not depend on the
classification counts alone. -/
theorem c8_counterexample :
    uriAbnormalCount [] = 0 ∧ uriBorderlineCount [] = 0 ∧
    (analyzeUrinalysisRules [] ⟨.high, 50⟩).detailedFindings ≠ .allNormal := by
  with_unfolding_all decide

/-- C8 (amended): the urinalysis all-normal summary branch is produced
exactly when both counts are zero and the external risk level is low; the
preventive borderline-only branch is produced exactly when there is no
abnormal finding and at least one borderline one, for every external
assessment. -/
theorem c8_narrative_branches (values : Values) (ml : MLRisk) :
    ((analyzeUrinalysisRules values ml).detailedFindings = .allNormal ↔
      uriAbnormalCount values = 0 ∧ uriBorderlineCount values = 0 ∧
        ml.riskLevel = .low) ∧
    ((analyzeUrinalysisRules values ml).detailedFindings = .borderlineOnly ↔
      uriAbnormalCount values = 0 ∧ 0 < uriBorderlineCount values) := by
  have hn : (analyzeUrinalysisRules values ml).detailedFindings =
      uriNarrative values ml := rfl
  rw [hn]
  unfold uriNarrative
  split_ifs with h1 h2 <;> constructor <;> simp_all

/-- C9: a raw value supplied as the number 0 (or as the empty string) for
a parameter with a nonzero default is silently replaced by the default
before classification, so it is classified and displayed as the default
value, never as 0. -/
theorem c9_zero_treated_as_absent (values : Values) :
    (lookupV values "wbc" = some (.num 0) →
      cbcWbc values = some 7.5 ∧ cbcWbcStatus values = .normal ∧
      jsToFixed (cbcWbc values) 1 = "7.5") ∧
    (lookupV values "wbc" = some (.str "") → cbcWbc values = some 7.5) ∧
    (lookupV values "rbc" = some (.num 0) → cbcRbc values = some 4.7) ∧
    (lookupV values "hemoglobin" = some (.num 0) → cbcHemoglobin values = some 14.0) ∧
    (lookupV values "platelets" = some (.num 0) → cbcPlatelets values = some 250) ∧
    (lookupV values "ph" = some (.num 0) →
      uriPh values = some 6.0 ∧ uriPhStatus values = .normal ∧
      jsToFixed (uriPh values) 1 = "6.0") ∧
    (lookupV values "specific_gravity" = some (.num 0) →
      lookupV values "specificGravity" = none →
      uriSpecificGravity values = some 1.015) := by
  refine ⟨?_, ?_, ?_, ?_, ?_, ?_, ?_⟩
  · intro h
    have hw : cbcWbc values = some 7.5 := by
      simp [cbcWbc, h, jsOrV, falsyV, parseFloatRaw]
    refine ⟨hw, ?_, ?_⟩
    · rw [cbcWbcStatus, hw]
      with_unfolding_all decide
    · rw [hw]
      with_unfolding_all decide
  · intro h
    simp [cbcWbc, h, jsOrV, falsyV, parseFloatRaw]
  · intro h
    simp [cbcRbc, h, jsOrV, falsyV, parseFloatRaw]
  · intro h
    simp [cbcHemoglobin, h, jsOrV, falsyV, parseFloatRaw]
  · intro h
    have hq : cbcPlateletsAdequate values = false := by
      simp [cbcPlateletsAdequate, h]
    simp [cbcPlatelets, hq, h, jsOrV, falsyV, parseFloatRaw]
  · intro h
    have hp : uriPh values = some 6.0 := by
      simp [uriPh, h, jsOrV, falsyV, parseFloatRaw]
    refine ⟨hp, ?_, ?_⟩
    · rw [uriPhStatus, hp]
      with_unfolding_all decide
    · rw [hp]
      with_unfolding_all decide
  · intro h h'
    simp [uriSpecificGravity, h, h', jsOrV, falsyV, parseFloatRaw]

theorem c9_witness :
    lookupV [("wbc", RawValue.num 0)] "wbc" = some (.num 0) ∧
    cbcWbc [("wbc", RawValue.num 0)] = some 7.5 ∧
    cbcWbcStatus [("wbc", RawValue.num 0)] = .normal :=
  ⟨by with_unfolding_all decide,
   ((c9_zero_treated_as_absent [("wbc", RawValue.num 0)]).1
     (by with_unfolding_all decide)).1,
   ((c9_zero_treated_as_absent [("wbc", RawValue.num 0)]).1
     (by with_unfolding_all decide)).2.1⟩

/-- C10: a protein string not case-insensitively equal to positive or
trace is coerced to negative and classified normal, and a bacteria string
outside the case-insensitive vocabulary few, moderate, many is coerced to
negative and classified normal. -/
theorem c10_vocabulary_coercion (values : Values) :
    (∀ s, lookupV values "protein" = some (.str s) →
      s.toLower ≠ "positive" → s.toLower ≠ "trace" →
      uriProtein values = "negative" ∧ uriProteinStatus values = .normal) ∧
    (∀ s, lookupV values "bacteria" = some (.str s) →
      s.toLower ≠ "few" → s.toLower ≠ "moderate" → s.toLower ≠ "many" →
      uriBacteria values = "negative" ∧ uriBacteriaStatus values = .normal) := by
  constructor
  · intro s h h1 h2
    have hp : uriProtein values = "negative" := by
      by_cases hs : s = ""
      · subst hs
        have hv : uriProteinValue values = "negative" := by
          simp only [uriProteinValue, h, jsOrV, falsyV]
          with_unfolding_all decide
        simp [uriProtein, hv]
      · have hv : uriProteinValue values = s.toLower := by
          simp [uriProteinValue, h, jsOrV, falsyV, hs, jsStringOfRaw]
        simp [uriProtein, hv, h1, h2]
    refine ⟨hp, ?_⟩
    rw [uriProteinStatus, hp]
    with_unfolding_all decide
  · intro s h h1 h2 h3
    have hb : uriBacteria values = "negative" := by
      by_cases hs : s = ""
      · subst hs
        have hv : uriBacteriaValue values = "negative" := by
          simp only [uriBacteriaValue, h, jsOrV, falsyV]
          with_unfolding_all decide
        simp [uriBacteria, hv]
      · have hv : uriBacteriaValue values = s.toLower := by
          simp [uriBacteriaValue, h, jsOrV, falsyV, hs, jsStringOfRaw]
        simp [uriBacteria, hv, h1, h2, h3]
    refine ⟨hb, ?_⟩
    rw [uriBacteriaStatus, hb]
    with_unfolding_all decide

theorem c10_witness :
    "2+".toLower ≠ "positive" ∧ "abundant".toLower ≠ "few" ∧
    uriProtein [("protein", RawValue.str "2+"), ("bacteria", RawValue.str "abundant")] =
      "negative" ∧
    uriBacteria [("protein", RawValue.str "2+"), ("bacteria", RawValue.str "abundant")] =
      "negative" :=
  ⟨by with_unfolding_all decide, by with_unfolding_all decide,
   ((c10_vocabulary_coercion
       [("protein", RawValue.str "2+"), ("bacteria", RawValue.str "abundant")]).1 "2+"
     (by with_unfolding_all decide) (by with_unfolding_all decide)
     (by with_unfolding_all decide)).1,
   ((c10_vocabulary_coercion
       [("protein", RawValue.str "2+"), ("bacteria", RawValue.str "abundant")]).2
     "abundant" (by with_unfolding_all decide) (by with_unfolding_all decide)
     (by with_unfolding_all decide) (by with_unfolding_all decide)).1⟩

end LabVio
